import Mathlib

/-!
Shallow embedding of the adaptive resource-scaling controller
(`cost_optimizer.py`, `resource_manager.py`, `horizontal_scaler.py`,
`predictive_scaler.py`).  Python floats are modelled as exact rationals;
Python lists as `List`; Python `min(xs, key=f)` (which keeps the first
element attaining the minimal key) as `minByKey`; fallible code paths
(exceptions such as `ZeroDivisionError`) as `Option`.
-/

namespace Scaling

/-- `ResourceProfile` dataclass from `cost_optimizer.py`. -/
structure ResourceProfile where
  name : String
  cpu_cores : ℚ
  memory_gb : ℚ
  gpu_count : ℕ
  hourly_cost : ℚ
  max_concurrent_users : ℕ
deriving DecidableEq, Repr

/-- The usage-metrics dictionary consumed by `calculate_optimal_profile`.
`gpu_utilization` is read with `dict.get` (default 0) in the source, so it is
optional here; the other keys are accessed unconditionally. -/
structure Metrics where
  active_users : ℚ
  cpu_utilization : ℚ
  memory_utilization : ℚ
  gpu_utilization : Option ℚ
  requests_per_minute : ℚ
  average_response_time : ℚ
  timestamp : ℚ
deriving DecidableEq, Repr

/-- Python `min(best :: rest, key=f)`: replaces the running best only on a
strictly smaller key, hence keeps the **first** element attaining the minimum. -/
def minByKey {α : Type} (f : α → ℚ) : α → List α → α
  | best, [] => best
  | best, x :: xs => if f x < f best then minByKey f x xs else minByKey f best xs

def nanoProfile : ResourceProfile := ⟨"nano", 0.5, 1, 0, 0.05, 10⟩

def microProfile : ResourceProfile := ⟨"micro", 1, 2, 0, 0.10, 25⟩

def smallProfile : ResourceProfile := ⟨"small", 2, 4, 0, 0.20, 50⟩

def mediumProfile : ResourceProfile := ⟨"medium", 4, 8, 1, 0.80, 100⟩

def largeProfile : ResourceProfile := ⟨"large", 8, 16, 2, 1.60, 200⟩

def xlargeProfile : ResourceProfile := ⟨"xlarge", 16, 32, 4, 3.20, 400⟩

/-- The fixed catalog built in `CostOptimizer.__init__`. -/
def defaultProfiles : List ResourceProfile :=
  [nanoProfile, microProfile, smallProfile, mediumProfile, largeProfile, xlargeProfile]

/-- `required_capacity = max(active_users, requests_per_minute * 0.8)`. -/
def requiredCapacity (m : Metrics) : ℚ :=
  max m.active_users (m.requests_per_minute * 0.8)

/-- `max(cpu_utilization, memory_utilization, metrics.get('gpu_utilization', 0))`. -/
def currentUtilization (m : Metrics) : ℚ :=
  max (max m.cpu_utilization m.memory_utilization) (m.gpu_utilization.getD 0)

/-- The scoring lambda of `calculate_optimal_profile`:
`p.hourly_cost + abs(current_utilization - target_utilization) * 10`
with `target_utilization = 0.70`. -/
def profileScore (m : Metrics) (p : ResourceProfile) : ℚ :=
  p.hourly_cost + |currentUtilization m - 0.70| * 10

/-- The capacity filter of `calculate_optimal_profile`. -/
def suitableProfiles (profiles : List ResourceProfile) (m : Metrics) :
    List ResourceProfile :=
  profiles.filter (fun p => requiredCapacity m ≤ (p.max_concurrent_users : ℚ))

/-- `CostOptimizer.calculate_optimal_profile`, parameterised by the instance's
catalog `self.resource_profiles`.  `profiles[-1]` on an empty catalog raises in
Python, modelled by `List.getLast? = none`. -/
def calculate_optimal_profile (profiles : List ResourceProfile) (m : Metrics) :
    Option ResourceProfile :=
  match suitableProfiles profiles m with
  | [] => profiles.getLast?
  | p :: ps => some (minByKey (profileScore m) p ps)

/-- The simpler selector described by the spec around the implicit refinement
claim: among qualifying profiles return the lowest-hourly-cost one (first on a
cost tie), with the same fail-open fallback to the last profile. -/
def lowestCostQualifyingProfile (profiles : List ResourceProfile) (m : Metrics) :
    Option ResourceProfile :=
  match suitableProfiles profiles m with
  | [] => profiles.getLast?
  | p :: ps => some (minByKey (fun q => q.hourly_cost) p ps)

/-! ### GPU resource manager (`resource_manager.py`) -/

/-- `GPUMetrics` dataclass from `resource_manager.py`. -/
structure GPUMetrics where
  gpu_id : ℤ
  utilization : ℚ
  memory_used : ℚ
  memory_total : ℚ
  temperature : ℚ
  power_draw : ℚ
deriving DecidableEq, Repr

/-- The qualification predicate in `find_optimal_gpu`'s list comprehension:
enough free memory and utilization strictly below target. -/
def gpuQualifies (target_utilization memory_requirement : ℚ) (g : GPUMetrics) : Prop :=
  memory_requirement ≤ g.memory_total - g.memory_used ∧ g.utilization < target_utilization

instance (t r : ℚ) (g : GPUMetrics) : Decidable (gpuQualifies t r g) := by
  unfold gpuQualifies; infer_instance

/-- The `available_gpus` comprehension of `find_optimal_gpu`. -/
def gpuCandidates (target_utilization : ℚ) (metrics : List GPUMetrics)
    (memory_requirement : ℚ) : List GPUMetrics :=
  metrics.filter (fun g => gpuQualifies target_utilization memory_requirement g)

/-- `GPUResourceManager.find_optimal_gpu`, with the freshly collected metrics
list passed explicitly and `self.target_utilization` as a parameter.  Python's
`min` over the filtered candidates keeps the first element on a utilization
tie. -/
def find_optimal_gpu (target_utilization : ℚ) (metrics : List GPUMetrics)
    (memory_requirement : ℚ) : Option ℤ :=
  match gpuCandidates target_utilization metrics memory_requirement with
  | [] => none
  | g :: gs => some ((minByKey (fun x => x.utilization) g gs).gpu_id)

/-- `sum(gpu.utilization for gpu in measurement) / len(measurement)`; the
Python expression raises `ZeroDivisionError` on an empty measurement, so this
total function is only used beneath the emptiness guard. -/
def measurementMeanUtil (ms : List GPUMetrics) : ℚ :=
  (ms.map (fun g => g.utilization)).sum / (ms.length : ℚ)

/-- `GPUResourceManager.should_scale_up`.  `history` is
`self.gpu_metrics_history`, a list of per-collection measurement lists;
`history[-5:]` is the rolling window.  A measurement with no GPUs makes the
per-measurement average raise `ZeroDivisionError`, modelled by `none`;
otherwise the result is `some` of the boolean
`avg_utilization > target_utilization`. -/
def should_scale_up (target_utilization : ℚ) (history : List (List GPUMetrics)) :
    Option Bool :=
  let recent := history.drop (history.length - 5)
  if recent.length < 5 then some false
  else
    (recent.mapM (fun ms =>
      if ms.length = 0 then none else some (measurementMeanUtil ms))).map
      (fun means => decide (target_utilization < means.sum / (recent.length : ℚ)))

/-! ### Request-based horizontal scaler (`horizontal_scaler.py`) -/

/-- Constructor arguments of `RequestBasedScaler` (defaults 10 and 300). -/
structure RequestScalerConfig where
  target_queue_size : ℕ
  scale_cooldown : ℚ
deriving DecidableEq, Repr

/-- The mutable scaling state of `RequestBasedScaler`: `last_scale_time`,
initialised to 0. -/
structure RequestScalerState where
  last_scale_time : ℚ
deriving DecidableEq, Repr

/-- `RequestBasedScaler.get_average_response_time`. -/
def get_average_response_time (response_times : List ℚ) : ℚ :=
  if response_times.isEmpty then 0 else response_times.sum / response_times.length

/-- One iteration of `RequestBasedScaler.monitor_and_scale`, evaluated at wall
time `current_time` with the observed queue size and response-time deque.
Emits `some t` when a scale-up or scale-down is initiated at time `t` (the
moment `last_scale_time` is stamped). -/
def monitor_step (cfg : RequestScalerConfig) (st : RequestScalerState)
    (current_time : ℚ) (queue_size : ℕ) (response_times : List ℚ) :
    RequestScalerState × Option ℚ :=
  let art := get_average_response_time response_times
  let gate := cfg.scale_cooldown < current_time - st.last_scale_time
  let su := (cfg.target_queue_size < queue_size ∨ 5 < art) ∧ gate
  let sd := (queue_size < cfg.target_queue_size / 2 ∧ art < 2) ∧ gate
  if su then (⟨current_time⟩, some current_time)
  else if sd then (⟨current_time⟩, some current_time)
  else (st, none)

/-- One observation consumed by a `monitor_and_scale` iteration. -/
structure FastIn where
  t : ℚ
  queue_size : ℕ
  response_times : List ℚ

/-- Folding `monitor_step` over a sequence of loop iterations, collecting the
initiation times of the scalings performed. -/
def monitor_run (cfg : RequestScalerConfig) (st : RequestScalerState) :
    List FastIn → RequestScalerState × List ℚ
  | [] => (st, [])
  | i :: is =>
    let s := monitor_step cfg st i.t i.queue_size i.response_times
    let r := monitor_run cfg s.1 is
    (r.1, s.2.elim r.2 (fun t => t :: r.2))

/-! ### Cost optimizer state, transition execution and control loop
(`cost_optimizer.py`) -/

/-- The profile-related mutable state of `CostOptimizer`:
`self.current_profile`, initialised to `resource_profiles[2]` (small). -/
structure CostOptimizerState where
  current_profile : ResourceProfile
deriving DecidableEq, Repr

def initialCostOptimizerState : CostOptimizerState := ⟨smallProfile⟩

/-- Outcome of the external transition executor's calls
(`scale_up_to_profile`, `scale_down_from_profile`, `drain_connections` are
`await`ed platform actions; `false` models the call raising).  The source's
stubs always succeed; the executor is the §6 boundary interface. -/
structure TransitionExecutor where
  scale_up : ResourceProfile → Bool
  scale_down : ResourceProfile → Bool
  drain : Bool

/-- `CostOptimizer.transition_to_profile`: the assignment
`self.current_profile = new_profile` runs only after every executor call has
returned; an exception anywhere aborts the method with the state intact (the
caller `monitor_usage_and_optimize` catches it and keeps looping).  Returns
the state paired with `true` on success, `false` on an aborted transition. -/
def transition_to_profile (ex : TransitionExecutor) (st : CostOptimizerState)
    (new_profile : ResourceProfile) : CostOptimizerState × Bool :=
  let old := st.current_profile
  if old.hourly_cost < new_profile.hourly_cost then
    if ex.scale_up new_profile then
      if ex.scale_down old then (⟨new_profile⟩, true) else (st, false)
    else (st, false)
  else
    if ex.drain then
      if ex.scale_down old then
        if ex.scale_up new_profile then (⟨new_profile⟩, true) else (st, false)
      else (st, false)
    else (st, false)

/-- `CostOptimizer.collect_usage_metrics` returns this fixed dictionary (only
the timestamp varies with the wall clock). -/
def collect_usage_metrics (ts : ℚ) : Metrics :=
  ⟨75, 0.65, 0.70, some 0.80, 120, 1.5, ts⟩

/-- One iteration of `CostOptimizer.monitor_usage_and_optimize` at wall time
`t`, with the executor calls succeeding (as the source's stubs do).  Emits
`some t` when a profile transition is initiated; there is no cooldown check in
this loop. -/
def cost_monitor_step (st : CostOptimizerState) (t : ℚ) :
    CostOptimizerState × Option ℚ :=
  (calculate_optimal_profile defaultProfiles (collect_usage_metrics t)).elim
    (st, none)
    (fun opt => if opt = st.current_profile then (st, none) else (⟨opt⟩, some t))

/-- The two concurrently running loops of the system: an iteration of the fast
queue/response-time loop or of the slow cost/profile loop, each stamped with
the wall time at which it runs. -/
inductive ControllerIn where
  | fast (t : ℚ) (queue_size : ℕ) (response_times : List ℚ)
  | cost (t : ℚ)

/-- Combined state of the two loops.  In the source they are separate objects
(`RequestBasedScaler` and `CostOptimizer`) sharing no field. -/
structure ControllerState where
  fastSt : RequestScalerState
  costSt : CostOptimizerState

/-- Process startup: `last_scale_time = 0`, `current_profile = small`. -/
def initialControllerState : ControllerState := ⟨⟨0⟩, initialCostOptimizerState⟩

/-- Dispatch one loop iteration; the fast loop uses the reference
configuration (`target_queue_size = 10`, `scale_cooldown = 300`). -/
def controller_step (st : ControllerState) :
    ControllerIn → ControllerState × Option ℚ
  | .fast t qs rts =>
    let r := monitor_step ⟨10, 300⟩ st.fastSt t qs rts
    (⟨r.1, st.costSt⟩, r.2)
  | .cost t =>
    let r := cost_monitor_step st.costSt t
    (⟨st.fastSt, r.1⟩, r.2)

/-- Interleaved execution of both loops, collecting every transition
initiation time in order. -/
def controller_run (st : ControllerState) :
    List ControllerIn → ControllerState × List ℚ
  | [] => (st, [])
  | i :: is =>
    let s := controller_step st i
    let r := controller_run s.1 is
    (r.1, s.2.elim r.2 (fun t => t :: r.2))

/-! ### Predictive scaler (`predictive_scaler.py`) -/

/-- One engineered feature row appended by `collect_metrics`. -/
structure MetricsRow where
  timestamp : ℚ
  hour_of_day : ℤ
  day_of_week : ℤ
  request_count : ℚ
  response_time : ℚ
  cpu_usage : ℚ
  memory_usage : ℚ
  gpu_usage : ℚ
deriving DecidableEq, Repr

/-- `pd.to_datetime(timestamp, unit='s').hour`: hours since midnight UTC,
floor semantics. -/
def hourOfDay (ts : ℚ) : ℤ := ((Int.floor ts).fdiv 3600).fmod 24

/-- `pd.to_datetime(timestamp, unit='s').dayofweek` (Monday = 0; the epoch,
1970-01-01, was a Thursday = 3). -/
def dayOfWeek (ts : ℚ) : ℤ := ((Int.floor ts).fdiv 86400 + 3).fmod 7

def mkMetricsRow (ts req resp cpu mem gpu : ℚ) : MetricsRow :=
  ⟨ts, hourOfDay ts, dayOfWeek ts, req, resp, cpu, mem, gpu⟩

def defaultMetricsRow : MetricsRow := mkMetricsRow 0 0 0 0 0 0

/-- State of `PredictiveScaler`.  The fitted `StandardScaler` and
`RandomForestRegressor` are external library objects (§6 boundary): the state
records the data each was fitted on (`scaler_fit` the feature matrix,
`model_fit` the feature matrix and target vector), which determines them. -/
structure PredictiveScalerState where
  history_window : ℕ
  scaler_fit : Option (List (List ℚ))
  model_fit : Option (List (List ℚ) × List ℚ)
  is_trained : Bool
  metrics_history : List MetricsRow

/-- `PredictiveScaler.__init__` with the default `history_window = 168`. -/
def initialPredictiveScaler : PredictiveScalerState := ⟨168, none, none, false, []⟩

/-- `PredictiveScaler.collect_metrics`: append the engineered row, then, when
the row count exceeds `history_window * 24`, keep only the most recent
`history_window * 24` rows (a count-based truncation). -/
def collect_metrics (st : PredictiveScalerState)
    (ts req resp cpu mem gpu : ℚ) : PredictiveScalerState :=
  let h := st.metrics_history ++ [mkMetricsRow ts req resp cpu mem gpu]
  let h := if st.history_window * 24 < h.length
    then h.drop (h.length - st.history_window * 24) else h
  { st with metrics_history := h }

/-- The seven base feature columns of a row, in the source's order. -/
def rowBase (r : MetricsRow) : List ℚ :=
  [(r.hour_of_day : ℚ), (r.day_of_week : ℚ), r.request_count, r.response_time,
   r.cpu_usage, r.memory_usage, r.gpu_usage]

/-- The six lag columns (`shift(4)` and `shift(96)` per lagged metric, in the
source's column order) for history index `i`; only evaluated with `96 ≤ i`. -/
def lagFeatures (h : List MetricsRow) (i : ℕ) : List ℚ :=
  let r4 := h.getD (i - 4) defaultMetricsRow
  let r96 := h.getD (i - 96) defaultMetricsRow
  [r4.request_count, r96.request_count, r4.response_time, r96.response_time,
   r4.cpu_usage, r96.cpu_usage]

/-- The design matrix and target built by `train_model` once both lag columns
exist: `dropna` keeps rows 96.. of the history, `X[:-4]`/`y[:-4]` trim the
last 4, and the target is the request count 4 rows (1 hour) ahead. -/
def trainMatrix (h : List MetricsRow) : List (List ℚ) × List ℚ :=
  let idxs := (List.range (h.length - 96 - 4)).map (fun k => k + 96)
  (idxs.map (fun i => rowBase (h.getD i defaultMetricsRow) ++ lagFeatures h i),
   idxs.map (fun i => (h.getD (i + 4) defaultMetricsRow).request_count))

/-- `PredictiveScaler.train_model`.  Returns the Python boolean result paired
with the updated state.  The two insufficient-data paths return before any of
`scaler.fit_transform`, `model.fit` or `self.is_trained = True` runs. -/
def train_model (st : PredictiveScalerState) : Bool × PredictiveScalerState :=
  if st.metrics_history.length < 48 then (false, st)
  else if st.metrics_history.length - 96 < 24 then (false, st)
  else
    let m := trainMatrix st.metrics_history
    (true, { st with scaler_fit := some m.1, model_fit := some (m.1, m.2),
                     is_trained := true })

/-- `PredictiveScaler.predict_scaling_need`, with the composite
`scaler.transform` + `model.predict` step abstracted as the external-library
function `reg` of the fitted scaler, the fitted model and the feature vector
(out-of-range negative indexing on an empty history is modelled by `getD`;
it is only exercised once training has populated the history). -/
def predict_scaling_need
    (reg : Option (List (List ℚ)) → Option (List (List ℚ) × List ℚ) → List ℚ → ℚ)
    (st : PredictiveScalerState) (current_time : ℚ) (current_instances : ℤ) : ℤ :=
  if st.is_trained = false then current_instances
  else
    let n := st.metrics_history.length
    let latest := st.metrics_history.getD (n - 1) defaultMetricsRow
    let base := [(hourOfDay current_time : ℚ), (dayOfWeek current_time : ℚ),
      latest.request_count, latest.response_time, latest.cpu_usage,
      latest.memory_usage, latest.gpu_usage]
    let lags := if 96 ≤ n then
        let r4 := st.metrics_history.getD (n - 4) defaultMetricsRow
        let r96 := st.metrics_history.getD (n - 96) defaultMetricsRow
        [r4.request_count, r4.response_time, r4.cpu_usage,
         r96.request_count, r96.response_time, r96.cpu_usage]
      else [0, 0, 0, 0, 0, 0]
    let predicted := reg st.scaler_fit st.model_fit (base ++ lags)
    max 1 (Int.ceil (predicted / 100))

/-! ### Cost ledger (`cost_optimizer.py`, `generate_cost_report`) -/

/-- One hour bucket of `self.cost_metrics`. -/
structure CostBucket where
  cost : ℚ
  requests : ℚ
  active_users : ℚ
  profile_used : String
deriving DecidableEq, Repr

/-- Insertion step of an ascending-by-key insertion sort, modelling Python's
`sorted(self.cost_metrics.keys())` (dictionary keys are distinct). -/
def insertByKey (x : ℕ × CostBucket) :
    List (ℕ × CostBucket) → List (ℕ × CostBucket)
  | [] => [x]
  | y :: ys => if x.1 ≤ y.1 then x :: y :: ys else y :: insertByKey x ys

def sortByKey (l : List (ℕ × CostBucket)) : List (ℕ × CostBucket) :=
  l.foldr insertByKey []

/-- The numeric fields of the report dictionary returned by
`generate_cost_report` (the breakdown and recommendation entries are separate
read-only views not involved in the claims). -/
structure CostReport where
  period_hours : ℕ
  total_cost : ℚ
  total_requests : ℚ
  cost_per_request : ℚ
deriving DecidableEq, Repr

/-- `CostOptimizer.generate_cost_report`: sum cost and requests over the last
`hours` hour buckets in key order; the unit cost is
`total_cost / max(total_requests, 1)`. -/
def generate_cost_report (cost_metrics : List (ℕ × CostBucket)) (hours : ℕ) :
    CostReport :=
  let sorted := sortByKey cost_metrics
  let recent := sorted.drop (sorted.length - hours)
  let total_cost := (recent.map (fun kb => kb.2.cost)).sum
  let total_requests := (recent.map (fun kb => kb.2.requests)).sum
  ⟨hours, total_cost, total_requests, total_cost / max total_requests 1⟩

/-! ### Concrete scenario inputs from the testable-properties section -/

/-- The three-profile catalog named by scenarios A and B. -/
def claimCatalog : List ResourceProfile := [nanoProfile, smallProfile, mediumProfile]

/-- Scenario A snapshot: `activeUsers=60, requestsPerMinute=50,
cpuUtilization=0.5` (remaining utilizations unspecified, taken as absent/0). -/
def scenarioA : Metrics := ⟨60, 0.5, 0, none, 50, 0, 0⟩

/-- Scenario B snapshot: `activeUsers=5, requestsPerMinute=5,
cpuUtilization=0.1`. -/
def scenarioB : Metrics := ⟨5, 0.1, 0, none, 5, 0, 0⟩

/-- Scenario C GPU list: id 0 with utilization 0.9 and 2 GB free, id 1 with
utilization 0.3 and 8 GB free (16 GB cards). -/
def scenarioCGpus : List GPUMetrics :=
  [⟨0, 0.9, 14, 16, 0, 0⟩, ⟨1, 0.3, 8, 16, 0, 0⟩]

/-! ### Helper lemmas about `minByKey` -/

theorem minByKey_mem {α : Type} (f : α → ℚ) (a : α) (l : List α) :
    minByKey f a l ∈ a :: l := by
  induction l generalizing a with
  | nil => simp [minByKey]
  | cons x xs ih =>
    simp only [minByKey]
    by_cases h : f x < f a
    · simp only [h, if_pos]
      have := ih x
      simp only [List.mem_cons] at this ⊢
      tauto
    · simp only [h, if_neg, not_false_iff]
      have := ih a
      simp only [List.mem_cons] at this ⊢
      tauto

theorem minByKey_le {α : Type} (f : α → ℚ) (a : α) (l : List α) :
    ∀ x ∈ a :: l, f (minByKey f a l) ≤ f x := by
  induction l generalizing a with
  | nil => simp [minByKey]
  | cons y ys ih =>
    intro x hx
    simp only [List.mem_cons] at hx
    simp only [minByKey]
    by_cases h : f y < f a
    · have hle : ∀ z ∈ y :: ys, f (minByKey f y ys) ≤ f z := ih y
      rcases hx with rfl | rfl | hx
      · have := hle y (by simp)
        simp only [h, if_pos]
        exact le_trans this (le_of_lt h)
      · simpa [h] using hle x (by simp)
      · simpa [h] using hle x (by simp [hx])
    · have hle : ∀ z ∈ a :: ys, f (minByKey f a ys) ≤ f z := ih a
      rcases hx with rfl | rfl | hx
      · simpa [h] using hle x (by simp)
      · have := hle a (by simp)
        simp only [h, if_neg, not_false_iff]
        exact le_trans this (le_of_not_lt h)
      · simpa [h] using hle x (by simp [hx])

/-- `minByKey` returns the **first** element attaining the minimum: everything
strictly before the result in the scanned list has a strictly larger key. -/
theorem minByKey_first {α : Type} (f : α → ℚ) (a : α) (l : List α) :
    ∃ l₁ l₂, a :: l = l₁ ++ minByKey f a l :: l₂ ∧
      ∀ x ∈ l₁, f (minByKey f a l) < f x := by
  induction l generalizing a with
  | nil => exact ⟨[], [], by simp [minByKey], by simp⟩
  | cons y ys ih =>
    simp only [minByKey]
    by_cases h : f y < f a
    · obtain ⟨l₁, l₂, heq, hlt⟩ := ih y
      refine ⟨a :: l₁, l₂, by simp [h, heq], ?_⟩
      intro x hx
      simp only [List.mem_cons] at hx
      rcases hx with rfl | hx
      · have : f (minByKey f y ys) ≤ f y := minByKey_le f y ys y (by simp)
        simpa [h] using lt_of_le_of_lt this h
      · simpa [h] using hlt x hx
    · rw [if_neg h]
      obtain ⟨l₁, l₂, heq, hlt⟩ := ih a
      rcases l₁ with _ | ⟨b, l₁⟩
      · simp only [List.nil_append, List.cons.injEq] at heq
        exact ⟨[], y :: ys, by simp [← heq.1], by simp⟩
      · simp only [List.cons_append, List.cons.injEq] at heq
        have hba : f (minByKey f a ys) < f a := by
          have := hlt b (by simp)
          rwa [← heq.1] at this
        refine ⟨a :: y :: l₁, l₂, ?_, ?_⟩
        · simp only [List.cons_append, List.cons.injEq]
          exact ⟨trivial, trivial, heq.2⟩
        · intro x hx
          simp only [List.mem_cons] at hx
          rcases hx with rfl | rfl | hx
          · exact hba
          · exact lt_of_lt_of_le hba (le_of_not_lt h)
          · exact hlt x (by simp [hx])

/-- Two key functions inducing the same strict comparisons give the same
`minByKey` result. -/
theorem minByKey_congr {α : Type} (f g : α → ℚ)
    (h : ∀ x y, f x < f y ↔ g x < g y) (a : α) (l : List α) :
    minByKey f a l = minByKey g a l := by
  induction l generalizing a with
  | nil => rfl
  | cons x xs ih =>
    simp only [minByKey, h x a]
    by_cases hc : g x < g a
    · simp [hc, ih]
    · simp [hc, ih]

/-! ### Lemmas about the profile selector -/

theorem mem_suitableProfiles {profiles : List ResourceProfile} {m : Metrics}
    {q : ResourceProfile} :
    q ∈ suitableProfiles profiles m ↔
      q ∈ profiles ∧ requiredCapacity m ≤ (q.max_concurrent_users : ℚ) := by
  simp [suitableProfiles, List.mem_filter]

theorem calculate_optimal_profile_of_suitable_cons
    {profiles : List ResourceProfile} {m : Metrics} {p : ResourceProfile}
    {ps : List ResourceProfile} (h : suitableProfiles profiles m = p :: ps) :
    calculate_optimal_profile profiles m =
      some (minByKey (profileScore m) p ps) := by
  unfold calculate_optimal_profile
  rw [h]

theorem calculate_optimal_profile_of_suitable_nil
    {profiles : List ResourceProfile} {m : Metrics}
    (h : suitableProfiles profiles m = []) :
    calculate_optimal_profile profiles m = profiles.getLast? := by
  unfold calculate_optimal_profile
  rw [h]

/-- Whenever some catalog profile meets the required capacity, the selected
profile comes from the catalog and meets it too. -/
theorem calculate_optimal_profile_qualifies
    (profiles : List ResourceProfile) (m : Metrics)
    (hex : ∃ p ∈ profiles, requiredCapacity m ≤ (p.max_concurrent_users : ℚ)) :
    ∃ q, calculate_optimal_profile profiles m = some q ∧ q ∈ profiles ∧
      requiredCapacity m ≤ (q.max_concurrent_users : ℚ) := by
  obtain ⟨p0, hp0, hcap⟩ := hex
  have hmem : p0 ∈ suitableProfiles profiles m :=
    mem_suitableProfiles.2 ⟨hp0, hcap⟩
  cases hs : suitableProfiles profiles m with
  | nil => rw [hs] at hmem; cases hmem
  | cons p ps =>
    refine ⟨minByKey (profileScore m) p ps,
      calculate_optimal_profile_of_suitable_cons hs, ?_⟩
    have hin : minByKey (profileScore m) p ps ∈ suitableProfiles profiles m := by
      rw [hs]; exact minByKey_mem _ p ps
    exact mem_suitableProfiles.1 hin

/-- C2: for every snapshot, with `requiredCapacity = max(activeUsers,
requestsPerMinute * 0.8)`, if any catalog profile has capacity at least the
requirement then `calculate_optimal_profile` returns a profile meeting the
requirement; if no profile qualifies it returns the highest-capacity profile
of the catalog (the last entry, xlarge); and on the scenario-A catalog and
snapshot (`activeUsers=60, requestsPerMinute=50, cpuUtilization=0.5`) the
result is `medium`. -/
theorem C2_capacity_selection (m : Metrics) :
    ((∃ p ∈ defaultProfiles, requiredCapacity m ≤ (p.max_concurrent_users : ℚ)) →
      ∃ q, calculate_optimal_profile defaultProfiles m = some q ∧
        q ∈ defaultProfiles ∧ requiredCapacity m ≤ (q.max_concurrent_users : ℚ)) ∧
    ((∀ p ∈ defaultProfiles, ¬ requiredCapacity m ≤ (p.max_concurrent_users : ℚ)) →
      calculate_optimal_profile defaultProfiles m = some xlargeProfile ∧
        ∀ p ∈ defaultProfiles,
          p.max_concurrent_users ≤ xlargeProfile.max_concurrent_users) ∧
    calculate_optimal_profile claimCatalog scenarioA = some mediumProfile := by
  refine ⟨calculate_optimal_profile_qualifies defaultProfiles m, ?_, ?_⟩
  · intro hnone
    have hs : suitableProfiles defaultProfiles m = [] := by
      simp only [suitableProfiles, List.filter_eq_nil_iff]
      intro p hp
      simpa using hnone p hp
    constructor
    · rw [calculate_optimal_profile_of_suitable_nil hs]
      rfl
    · intro p hp
      fin_cases hp <;> simp [nanoProfile, microProfile, smallProfile,
        mediumProfile, largeProfile, xlargeProfile]
  · simp only [calculate_optimal_profile, suitableProfiles, requiredCapacity,
      claimCatalog]
    norm_num [nanoProfile, smallProfile, mediumProfile, minByKey,
      profileScore, currentUtilization, scenarioA]

/-- Witness for C2: with 1000 active users no profile of the catalog
qualifies and the fail-open branch yields xlarge; the scenario-A conjunct is
instantiated as well. -/
theorem C2_capacity_selection_witness :
    calculate_optimal_profile defaultProfiles ⟨1000, 0, 0, none, 0, 0, 0⟩ =
        some xlargeProfile ∧
      calculate_optimal_profile claimCatalog scenarioA = some mediumProfile := by
  refine ⟨((C2_capacity_selection ⟨1000, 0, 0, none, 0, 0, 0⟩).2.1 ?_).1,
    (C2_capacity_selection ⟨1000, 0, 0, none, 0, 0, 0⟩).2.2⟩
  intro p hp
  fin_cases hp <;>
    norm_num [requiredCapacity, nanoProfile, microProfile, smallProfile,
      mediumProfile, largeProfile, xlargeProfile]

/-- C5: among qualifying profiles the selector returns a minimum-score
profile (score = hourlyCost + |currentUtilization − 0.70| · 10), which is
also minimum-cost, and it is the first minimum in catalog order (every
earlier qualifying profile scores strictly higher); selection is a pure
function of the inputs; and on scenario B (`activeUsers=5,
requestsPerMinute=5, cpuUtilization=0.1`) the result is `nano`. -/
theorem C5_score_minimisation (profiles : List ResourceProfile) (m : Metrics)
    (p : ResourceProfile) (ps : List ResourceProfile)
    (h : suitableProfiles profiles m = p :: ps) :
    (∃ q, calculate_optimal_profile profiles m = some q ∧
      q ∈ suitableProfiles profiles m ∧
      (∀ r ∈ suitableProfiles profiles m, profileScore m q ≤ profileScore m r) ∧
      (∀ r ∈ suitableProfiles profiles m, q.hourly_cost ≤ r.hourly_cost) ∧
      ∃ l₁ l₂, suitableProfiles profiles m = l₁ ++ q :: l₂ ∧
        ∀ r ∈ l₁, profileScore m q < profileScore m r) ∧
    (∀ m₂, m = m₂ →
      calculate_optimal_profile profiles m = calculate_optimal_profile profiles m₂) ∧
    calculate_optimal_profile claimCatalog scenarioB = some nanoProfile := by
  refine ⟨?_, ?_, ?_⟩
  · refine ⟨minByKey (profileScore m) p ps,
      calculate_optimal_profile_of_suitable_cons h, ?_, ?_, ?_, ?_⟩
    · rw [h]; exact minByKey_mem _ p ps
    · rw [h]; exact minByKey_le _ p ps
    · rw [h]
      intro r hr
      have hs := minByKey_le (profileScore m) p ps r hr
      simpa [profileScore] using hs
    · rw [h]; exact minByKey_first _ p ps
  · rintro m₂ rfl; rfl
  · simp only [calculate_optimal_profile, suitableProfiles, requiredCapacity,
      claimCatalog]
    norm_num [nanoProfile, smallProfile, mediumProfile, minByKey,
      profileScore, currentUtilization, scenarioB]

/-- Witness for C5: instantiated on scenario B over the three-profile
catalog, where the qualifying list is the whole catalog. -/
theorem C5_score_minimisation_witness :
    calculate_optimal_profile claimCatalog scenarioB = some nanoProfile :=
  (C5_score_minimisation claimCatalog scenarioB nanoProfile
    [smallProfile, mediumProfile] (by
      simp only [suitableProfiles, requiredCapacity, claimCatalog]
      norm_num [nanoProfile, smallProfile, mediumProfile, scenarioB])).2.2

/-- C10: the utilization-penalty term of the score does not depend on the
candidate profile, so `calculate_optimal_profile` agrees extensionally with
the selector that picks the lowest-hourly-cost qualifying profile (same
fail-open fallback), for every catalog and snapshot — in particular for
catalogs with pairwise-distinct hourly costs. -/
theorem C10_cost_refinement (profiles : List ResourceProfile) (m : Metrics) :
    calculate_optimal_profile profiles m = lowestCostQualifyingProfile profiles m := by
  unfold calculate_optimal_profile lowestCostQualifyingProfile
  cases hs : suitableProfiles profiles m with
  | nil => rfl
  | cons p ps =>
    exact congrArg some (minByKey_congr _ _
      (fun x y => by simp [profileScore]) p ps)

/-! ### Lemmas about GPU placement and trend detection -/

theorem mem_gpuCandidates {target req : ℚ} {metrics : List GPUMetrics}
    {g : GPUMetrics} :
    g ∈ gpuCandidates target metrics req ↔
      g ∈ metrics ∧ gpuQualifies target req g := by
  simp [gpuCandidates, List.mem_filter]

/-- C4 (amended): `find_optimal_gpu` returns `none` exactly when no GPU
qualifies (including the empty list); on success the returned id belongs to a
qualifying GPU of minimal utilization among all qualifiers, where a
utilization tie is broken by the earliest position in the input sequence (not
by the lowest id); and on the scenario-C list the result is id 1. -/
theorem C4_gpu_placement (target : ℚ) (metrics : List GPUMetrics) (req : ℚ) :
    (find_optimal_gpu target metrics req = none ↔
      ∀ g ∈ metrics, ¬ gpuQualifies target req g) ∧
    (∀ i, find_optimal_gpu target metrics req = some i →
      ∃ g, g.gpu_id = i ∧ g ∈ metrics ∧ gpuQualifies target req g ∧
        (∀ g' ∈ metrics, gpuQualifies target req g' →
          g.utilization ≤ g'.utilization) ∧
        ∃ l₁ l₂, gpuCandidates target metrics req = l₁ ++ g :: l₂ ∧
          ∀ g' ∈ l₁, g.utilization < g'.utilization) ∧
    find_optimal_gpu 0.8 scenarioCGpus 4 = some 1 := by
  refine ⟨?_, ?_, ?_⟩
  · unfold find_optimal_gpu
    cases hc : gpuCandidates target metrics req with
    | nil =>
      simp only [true_iff]
      intro g hg hq
      have : g ∈ gpuCandidates target metrics req := mem_gpuCandidates.2 ⟨hg, hq⟩
      rw [hc] at this
      cases this
    | cons g gs =>
      simp only [reduceCtorEq, false_iff, not_forall]
      have : g ∈ gpuCandidates target metrics req := by rw [hc]; simp
      obtain ⟨hg, hq⟩ := mem_gpuCandidates.1 this
      exact ⟨g, hg, not_not_intro hq⟩
  · intro i hi
    unfold find_optimal_gpu at hi
    cases hc : gpuCandidates target metrics req with
    | nil => rw [hc] at hi; cases hi
    | cons g gs =>
      rw [hc] at hi
      refine ⟨minByKey (fun x => x.utilization) g gs, by injection hi, ?_, ?_, ?_, ?_⟩
      · have : minByKey (fun x => x.utilization) g gs ∈
            gpuCandidates target metrics req := by
          rw [hc]; exact minByKey_mem _ g gs
        exact (mem_gpuCandidates.1 this).1
      · have : minByKey (fun x => x.utilization) g gs ∈
            gpuCandidates target metrics req := by
          rw [hc]; exact minByKey_mem _ g gs
        exact (mem_gpuCandidates.1 this).2
      · intro g' hg' hq'
        exact minByKey_le (fun x => x.utilization) g gs g'
          (by rw [← hc]; exact mem_gpuCandidates.2 ⟨hg', hq'⟩)
      · exact minByKey_first _ g gs
  · simp only [find_optimal_gpu, gpuCandidates, gpuQualifies, scenarioCGpus]
    norm_num [minByKey]

/-- Witness for C4: instantiated on the scenario-C GPU list, exercising the
success branch. -/
theorem C4_gpu_placement_witness :
    find_optimal_gpu 0.8 scenarioCGpus 4 = some 1 ∧
      ∃ g, g.gpu_id = 1 ∧ g ∈ scenarioCGpus ∧ gpuQualifies 0.8 4 g := by
  have h := C4_gpu_placement 0.8 scenarioCGpus 4
  refine ⟨h.2.2, ?_⟩
  obtain ⟨g, hid, hmem, hq, -⟩ := h.2.1 1 h.2.2
  exact ⟨g, hid, hmem, hq⟩

/-- C4 counterexample: the claimed lowest-gpuId tie-break is false.  Two
qualifying GPUs with equal utilization 0.3, listed as id 5 before id 1:
Python's `min` keeps the first listed candidate, so the placement is id 5,
not the lowest id 1. -/
theorem C4_counterexample :
    find_optimal_gpu 0.8 [⟨5, 0.3, 8, 16, 0, 0⟩, ⟨1, 0.3, 8, 16, 0, 0⟩] 4 =
        some 5 ∧
      gpuQualifies 0.8 4 ⟨1, 0.3, 8, 16, 0, 0⟩ ∧ (1 : ℤ) < 5 := by
  refine ⟨?_, ?_, by norm_num⟩
  · simp only [find_optimal_gpu, gpuCandidates, gpuQualifies]
    norm_num [minByKey]
  · constructor <;> norm_num

theorem mapM_measurementMeanUtil (l : List (List GPUMetrics))
    (h : ∀ ms ∈ l, ms ≠ []) :
    l.mapM (fun ms => if ms.length = 0 then none
        else some (measurementMeanUtil ms)) =
      some (l.map measurementMeanUtil) := by
  induction l with
  | nil => rfl
  | cons x xs ih =>
    have hx : ¬ x.length = 0 := by
      simpa [List.length_eq_zero] using h x (by simp)
    rw [List.mapM_cons, if_neg hx, ih (fun ms hms => h ms (by simp [hms]))]
    rfl

/-- C9 (amended): `should_scale_up` returns `false` for any history whose
rolling window (`history[-5:]`) holds fewer than 5 measurements; with at
least 5 measurements, **all of them non-empty**, it returns the boolean
"mean of the per-measurement mean utilizations strictly exceeds the target".
A window containing an empty measurement instead raises `ZeroDivisionError`
(result `none`), so the claimed equivalence only holds on windows of
non-empty measurements. -/
theorem C9_scale_up_trend (target : ℚ) (history : List (List GPUMetrics)) :
    (history.length < 5 → should_scale_up target history = some false) ∧
    (5 ≤ history.length →
      (∀ ms ∈ history.drop (history.length - 5), ms ≠ []) →
      should_scale_up target history =
        some (decide (target <
          ((history.drop (history.length - 5)).map measurementMeanUtil).sum / 5))) := by
  constructor
  · intro h
    have hlen : (history.drop (history.length - 5)).length < 5 := by
      rw [List.length_drop]; omega
    unfold should_scale_up
    rw [if_pos hlen]
  · intro h5 hne
    have hlen : (history.drop (history.length - 5)).length = 5 := by
      rw [List.length_drop]; omega
    unfold should_scale_up
    rw [if_neg (by omega), mapM_measurementMeanUtil _ hne]
    simp [hlen]

/-- Witness for C9: a 5-measurement history of single-GPU measurements with
utilizations 0.9, 0.9, 0.9, 0.9, 0.9 exceeds the 0.8 target, and a
4-measurement history is conservatively rejected. -/
theorem C9_scale_up_trend_witness :
    should_scale_up 0.8
        (List.replicate 4 [⟨0, 0.9, 0, 16, 0, 0⟩]) = some false ∧
      should_scale_up 0.8
        (List.replicate 5 [⟨0, 0.9, 0, 16, 0, 0⟩]) = some true := by
  constructor
  · exact (C9_scale_up_trend 0.8 _).1 (by norm_num)
  · have h := (C9_scale_up_trend 0.8
      (List.replicate 5 [⟨0, 0.9, 0, 16, 0, 0⟩])).2 (by norm_num)
      (by intro ms hms; simp at hms; simp [hms])
    rw [h]
    norm_num [measurementMeanUtil]

/-- C9 counterexample: on a reachable history of five empty measurements (a
host with no GPUs appends `[]` each collection), `should_scale_up` raises
`ZeroDivisionError` instead of returning the boolean the claim requires for
every history. -/
theorem C9_counterexample :
    should_scale_up 0.8 (List.replicate 5 ([] : List GPUMetrics)) = none ∧
      (List.replicate 5 ([] : List GPUMetrics)).length = 5 := by
  constructor
  · rfl
  · rfl

/-- C3: if any executor call fails during a profile transition (provisioning,
draining or decommissioning), the attempt returns with the controller state —
in particular `currentProfile` — exactly as before the attempt; only a fully
successful sequence installs the new profile. -/
theorem C3_failed_transition_preserves_profile (ex : TransitionExecutor)
    (st : CostOptimizerState) (new_profile : ResourceProfile)
    (h : (transition_to_profile ex st new_profile).2 = false) :
    (transition_to_profile ex st new_profile).1 = st ∧
      (transition_to_profile ex st new_profile).1.current_profile =
        st.current_profile := by
  have hst : (transition_to_profile ex st new_profile).1 = st := by
    unfold transition_to_profile at h ⊢
    by_cases hc : st.current_profile.hourly_cost < new_profile.hourly_cost
    · simp only [if_pos hc] at h ⊢
      cases hup : ex.scale_up new_profile <;>
        cases hdn : ex.scale_down st.current_profile <;>
          simp_all
    · simp only [if_neg hc] at h ⊢
      cases hdr : ex.drain <;>
        cases hdn : ex.scale_down st.current_profile <;>
          cases hup : ex.scale_up new_profile <;>
            simp_all
  exact ⟨hst, by rw [hst]⟩

/-- Witness for C3: an executor whose provisioning call fails leaves the
freshly started controller (profile `small`) on `small` after an attempted
scale-up to `medium`. -/
theorem C3_failed_transition_witness :
    (transition_to_profile ⟨fun _ => false, fun _ => true, true⟩
        initialCostOptimizerState mediumProfile).1.current_profile =
      smallProfile := by
  have h := C3_failed_transition_preserves_profile
    ⟨fun _ => false, fun _ => true, true⟩ initialCostOptimizerState mediumProfile
    (by norm_num [transition_to_profile, initialCostOptimizerState,
      smallProfile, mediumProfile])
  rw [h.2]
  rfl

/-- C6: with fewer than 48 history rows — and likewise whenever too few rows
survive the lag features and `dropna` (fewer than 24 of the `length − 96`
surviving rows) — `train_model` returns `false` and leaves the whole state,
in particular the fitted model, the fitted scaler and the `is_trained` flag,
untouched, so `predict_scaling_need` behaves exactly as before the call for
every regressor, time and instance count. -/
theorem C6_train_model_insufficient_data (st : PredictiveScalerState)
    (h : st.metrics_history.length < 48 ∨ st.metrics_history.length - 96 < 24) :
    train_model st = (false, st) ∧
      ∀ reg t n, predict_scaling_need reg (train_model st).2 t n =
        predict_scaling_need reg st t n := by
  have hfalse : train_model st = (false, st) := by
    unfold train_model
    split_ifs with h1 h2
    · rfl
    · rfl
    · omega
  exact ⟨hfalse, fun reg t n => by rw [hfalse]⟩

/-- Witness for C6: the freshly initialised scaler (empty history) refuses to
train and predicts the unchanged instance count afterwards. -/
theorem C6_train_model_insufficient_data_witness :
    train_model initialPredictiveScaler = (false, initialPredictiveScaler) ∧
      predict_scaling_need (fun _ _ _ => 0)
        (train_model initialPredictiveScaler).2 0 7 = 7 := by
  have h := C6_train_model_insufficient_data initialPredictiveScaler
    (Or.inl (by simp [initialPredictiveScaler]))
  refine ⟨h.1, ?_⟩
  rw [h.2 (fun _ _ _ => 0) 0 7]
  rfl

/-- C7 (amended): `generate_cost_report` sums cost and requests over the last
`hours` hour buckets in ascending key order, and guards the unit-cost
division by clamping the denominator to 1: with zero total requests the
reported cost-per-request equals the total cost — a finite number, not a
not-a-number value. -/
theorem C7_zero_request_unit_cost (cost_metrics : List (ℕ × CostBucket))
    (hours : ℕ)
    (h : (generate_cost_report cost_metrics hours).total_requests = 0) :
    (generate_cost_report cost_metrics hours).cost_per_request =
      (generate_cost_report cost_metrics hours).total_cost := by
  unfold generate_cost_report at h ⊢
  simp only at h ⊢
  rw [h]
  norm_num

/-- Witness for C7: one bucket holding 5 dollars and zero requests over a
24-hour window reports a unit cost of 5. -/
theorem C7_zero_request_unit_cost_witness :
    (generate_cost_report [(100, ⟨5, 0, 0, "small"⟩)] 24).total_requests = 0 ∧
      (generate_cost_report [(100, ⟨5, 0, 0, "small"⟩)] 24).cost_per_request =
        (generate_cost_report [(100, ⟨5, 0, 0, "small"⟩)] 24).total_cost := by
  have h0 : (generate_cost_report [(100, ⟨5, 0, 0, "small"⟩)] 24).total_requests = 0 := by
    norm_num [generate_cost_report, sortByKey, insertByKey]
  exact ⟨h0, C7_zero_request_unit_cost [(100, ⟨5, 0, 0, "small"⟩)] 24 h0⟩

/-- C7 counterexample: with total cost 5 and zero requests the reported
cost-per-request is the rational number 5 (the denominator is clamped to 1),
not a not-a-number value as claimed. -/
theorem C7_counterexample :
    (generate_cost_report [(100, ⟨5, 0, 0, "small"⟩)] 24).cost_per_request = 5 ∧
      (generate_cost_report [(100, ⟨5, 0, 0, "small"⟩)] 24).total_requests = 0 ∧
      (generate_cost_report [(100, ⟨5, 0, 0, "small"⟩)] 24).total_cost = 5 := by
  refine ⟨?_, ?_, ?_⟩ <;> norm_num [generate_cost_report, sortByKey, insertByKey]

/-- C8 (amended): `collect_metrics` appends the engineered row and evicts by
**row count**, not by age: the retained history is exactly the most recent
`min(previousCount + 1, historyWindow · 24)` rows, i.e. the appended list
with its oldest overflow dropped, regardless of the timestamps involved. -/
theorem C8_collect_metrics_count_eviction (st : PredictiveScalerState)
    (ts req resp cpu mem gpu : ℚ) (h : 0 < st.history_window * 24) :
    (collect_metrics st ts req resp cpu mem gpu).metrics_history =
      st.metrics_history.drop
        (st.metrics_history.length + 1 - st.history_window * 24) ++
        [mkMetricsRow ts req resp cpu mem gpu] ∧
    (collect_metrics st ts req resp cpu mem gpu).metrics_history.length =
      min (st.metrics_history.length + 1) (st.history_window * 24) := by
  have hdef : (collect_metrics st ts req resp cpu mem gpu).metrics_history =
      (if st.history_window * 24 <
          (st.metrics_history ++ [mkMetricsRow ts req resp cpu mem gpu]).length
        then (st.metrics_history ++ [mkMetricsRow ts req resp cpu mem gpu]).drop
          ((st.metrics_history ++ [mkMetricsRow ts req resp cpu mem gpu]).length -
            st.history_window * 24)
        else st.metrics_history ++ [mkMetricsRow ts req resp cpu mem gpu]) := rfl
  have hlen : (st.metrics_history ++ [mkMetricsRow ts req resp cpu mem gpu]).length =
      st.metrics_history.length + 1 := by simp
  rw [hdef]
  by_cases hc : st.history_window * 24 <
      (st.metrics_history ++ [mkMetricsRow ts req resp cpu mem gpu]).length
  · rw [if_pos hc]
    rw [hlen] at hc
    constructor
    · rw [hlen, List.drop_append_of_le_length (by omega)]
    · rw [List.length_drop, hlen]
      omega
  · rw [if_neg hc]
    rw [hlen] at hc
    have hk : st.metrics_history.length + 1 - st.history_window * 24 = 0 := by
      omega
    constructor
    · rw [hk, List.drop_zero]
    · rw [hlen]
      omega

/-- Witness for C8 (amended): collecting one snapshot into the fresh
forecaster appends a single row. -/
theorem C8_collect_metrics_count_eviction_witness :
    (collect_metrics initialPredictiveScaler 0 1 2 3 4 5).metrics_history =
      [mkMetricsRow 0 1 2 3 4 5] := by
  have h := (C8_collect_metrics_count_eviction initialPredictiveScaler
    0 1 2 3 4 5 (by norm_num [initialPredictiveScaler])).1
  simpa [initialPredictiveScaler] using h

/-- C8 counterexample: two snapshots 10^6 seconds apart (far beyond the
168-hour window) are both retained, because eviction counts rows instead of
comparing timestamps; the first retained row is older than
`historyWindowHours` before the newest row. -/
theorem C8_counterexample :
    ¬ (∀ r ∈ (collect_metrics (collect_metrics initialPredictiveScaler
          0 0 0 0 0 0) 1000000 0 0 0 0 0).metrics_history,
        (1000000 : ℚ) - 168 * 3600 ≤ r.timestamp) := by
  intro hall
  have hH : (collect_metrics (collect_metrics initialPredictiveScaler
        0 0 0 0 0 0) 1000000 0 0 0 0 0).metrics_history =
      [mkMetricsRow 0 0 0 0 0 0, mkMetricsRow 1000000 0 0 0 0 0] := rfl
  have h0 := hall (mkMetricsRow 0 0 0 0 0 0) (by rw [hH]; simp)
  have hts : (mkMetricsRow 0 0 0 0 0 0).timestamp = 0 := rfl
  rw [hts] at h0
  norm_num at h0

/-! ### Lemmas about the scaling loops and the cooldown gate -/

/-- A `monitor_and_scale` iteration either does nothing, or initiates a
scaling at its wall time, which is then possible only past the cooldown
gate. -/
theorem monitor_step_cases (cfg : RequestScalerConfig) (st : RequestScalerState)
    (t : ℚ) (qs : ℕ) (rts : List ℚ) :
    monitor_step cfg st t qs rts = (st, none) ∨
      (monitor_step cfg st t qs rts = (⟨t⟩, some t) ∧
        cfg.scale_cooldown < t - st.last_scale_time) := by
  simp only [monitor_step]
  split_ifs with h1 h2
  · exact Or.inr ⟨rfl, h1.2⟩
  · exact Or.inr ⟨rfl, h2.2⟩
  · exact Or.inl rfl

theorem monitor_run_cons (cfg : RequestScalerConfig)
    (st : RequestScalerState) (i : FastIn) (is : List FastIn) :
    monitor_run cfg st (i :: is) =
      ((monitor_run cfg
          (monitor_step cfg st i.t i.queue_size i.response_times).1 is).1,
        (monitor_step cfg st i.t i.queue_size i.response_times).2.elim
          (monitor_run cfg
            (monitor_step cfg st i.t i.queue_size i.response_times).1 is).2
          (fun t => t :: (monitor_run cfg
            (monitor_step cfg st i.t i.queue_size i.response_times).1 is).2)) :=
  rfl

theorem monitor_run_cons_none {cfg : RequestScalerConfig}
    {st : RequestScalerState} {i : FastIn} {is : List FastIn}
    (h : monitor_step cfg st i.t i.queue_size i.response_times = (st, none)) :
    monitor_run cfg st (i :: is) = monitor_run cfg st is := by
  rw [monitor_run_cons, h]
  rfl

theorem monitor_run_cons_some {cfg : RequestScalerConfig}
    {st : RequestScalerState} {i : FastIn} {is : List FastIn}
    (h : monitor_step cfg st i.t i.queue_size i.response_times =
      (⟨i.t⟩, some i.t)) :
    monitor_run cfg st (i :: is) =
      ((monitor_run cfg ⟨i.t⟩ is).1, i.t :: (monitor_run cfg ⟨i.t⟩ is).2) := by
  rw [monitor_run_cons, h]
  rfl

/-- The cooldown invariant of the fast loop: every scaling it initiates is
more than `scale_cooldown` after the stamped `last_scale_time`, and the
initiation times it emits are pairwise more than `scale_cooldown` apart. -/
theorem monitor_run_cooldown (cfg : RequestScalerConfig)
    (hcd : 0 ≤ cfg.scale_cooldown) :
    ∀ (inputs : List FastIn) (st : RequestScalerState),
      (∀ u ∈ (monitor_run cfg st inputs).2,
        st.last_scale_time + cfg.scale_cooldown < u) ∧
      (monitor_run cfg st inputs).2.Pairwise
        (fun a b => a + cfg.scale_cooldown < b) := by
  intro inputs
  induction inputs with
  | nil => intro st; simp [monitor_run]
  | cons i is ih =>
    intro st
    rcases monitor_step_cases cfg st i.t i.queue_size i.response_times with
      hstep | ⟨hstep, hgate⟩
    · rw [monitor_run_cons_none hstep]
      exact ih st
    · rw [monitor_run_cons_some hstep]
      obtain ⟨hall, hpw⟩ := ih ⟨i.t⟩
      have hlt : st.last_scale_time + cfg.scale_cooldown < i.t := by linarith
      have hall' : ∀ u ∈ (monitor_run cfg ⟨i.t⟩ is).2,
          i.t + cfg.scale_cooldown < u := hall
      constructor
      · intro u hu
        simp only [List.mem_cons] at hu
        rcases hu with rfl | hu
        · exact hlt
        · have := hall' u hu
          linarith
      · rw [List.pairwise_cons]
        exact ⟨hall', hpw⟩

/-- C1 (amended): the cooldown gate is enforced only by the fast
queue/response-time loop on its own state: the scalings it initiates are
pairwise at least `scale_cooldown` apart, and an iteration inside the
cooldown window changes nothing and initiates nothing.  (The cost/profile
loop holds no `last_transition` timestamp at all and shares no state with the
fast loop — see the counterexample.) -/
theorem C1_fast_loop_cooldown (cfg : RequestScalerConfig)
    (st : RequestScalerState) (inputs : List FastIn)
    (hcd : 0 ≤ cfg.scale_cooldown) :
    ((monitor_run cfg st inputs).2.Pairwise
      (fun t₁ t₂ => cfg.scale_cooldown ≤ t₂ - t₁)) ∧
    (∀ t qs rts, ¬ cfg.scale_cooldown < t - st.last_scale_time →
      monitor_step cfg st t qs rts = (st, none)) := by
  constructor
  · have h := (monitor_run_cooldown cfg hcd inputs st).2
    exact h.imp (fun hab => by linarith)
  · intro t qs rts hgate
    unfold monitor_step
    rw [if_neg (fun hsu => hgate hsu.2), if_neg (fun hsd => hgate hsd.2)]

/-- Witness for C1 (amended): from a fresh scaler (`last_scale_time = 0`,
cooldown 300), an iteration at `t = 100` is suppressed even with a full
queue. -/
theorem C1_fast_loop_cooldown_witness :
    monitor_step ⟨10, 300⟩ ⟨0⟩ 100 20 [] = (⟨0⟩, none) :=
  (C1_fast_loop_cooldown ⟨10, 300⟩ ⟨0⟩ [] (by norm_num)).2 100 20 []
    (by norm_num)

theorem controller_run_cons (st : ControllerState) (i : ControllerIn)
    (is : List ControllerIn) :
    controller_run st (i :: is) =
      ((controller_run (controller_step st i).1 is).1,
        (controller_step st i).2.elim
          (controller_run (controller_step st i).1 is).2
          (fun t => t :: (controller_run (controller_step st i).1 is).2)) :=
  rfl

/-- C1 counterexample: starting from process startup, the fast loop initiates
a scale-up at `t = 1000` (queue 20 > 10, gate `1000 − 0 > 300` open) and the
cost loop — which keeps no transition timestamp and shares no state with the
fast loop — initiates a profile transition (small → medium, from its
hard-coded usage metrics) at `t = 1001`: two controller-initiated transitions
only 1 second apart, far below the 300-second cooldown the claim asserts for
every pair. -/
theorem C1_counterexample :
    (controller_run initialControllerState
        [ControllerIn.fast 1000 20 [], ControllerIn.cost 1001]).2 =
      [1000, 1001] ∧ (1001 : ℚ) - 1000 < 300 := by
  have hfast : controller_step initialControllerState
      (ControllerIn.fast 1000 20 []) =
      (⟨⟨1000⟩, initialCostOptimizerState⟩, some 1000) := by
    simp only [controller_step, initialControllerState]
    have hstep : monitor_step ⟨10, 300⟩ ⟨0⟩ 1000 20 [] = (⟨1000⟩, some 1000) := by
      simp only [monitor_step, get_average_response_time]
      norm_num
    rw [hstep]
  have hopt : calculate_optimal_profile defaultProfiles
      (collect_usage_metrics 1001) = some mediumProfile := by
    simp only [calculate_optimal_profile, suitableProfiles, requiredCapacity,
      defaultProfiles, collect_usage_metrics]
    norm_num [nanoProfile, microProfile, smallProfile, mediumProfile,
      largeProfile, xlargeProfile, minByKey, profileScore, currentUtilization]
  have hne : ¬ mediumProfile = initialCostOptimizerState.current_profile := by
    norm_num [mediumProfile, initialCostOptimizerState, smallProfile]
  have hcost0 : cost_monitor_step initialCostOptimizerState 1001 =
      (⟨mediumProfile⟩, some 1001) := by
    unfold cost_monitor_step
    rw [hopt]
    simp only [Option.elim]
    rw [if_neg hne]
  have hcost : controller_step ⟨⟨1000⟩, initialCostOptimizerState⟩
      (ControllerIn.cost 1001) =
      (⟨⟨1000⟩, ⟨mediumProfile⟩⟩, some 1001) := by
    simp only [controller_step]
    rw [hcost0]
  constructor
  · rw [controller_run_cons, hfast]
    simp only [Option.elim]
    rw [controller_run_cons, hcost]
    rfl
  · norm_num

end Scaling
